import Mathlib

/-!
Verification of the parrot snapshot-testing core: a shallow embedding of the
reconciliation engine (`src/driver/mod.rs`) and the session dispatch around
it, with theorems about run/update semantics.

Bytes are modelled as `List Nat`, exit codes as `Option Int` (mirroring
Rust's `ExitStatus::code() -> Option<i32>`).
-/

namespace Parrot

/-- Snapshot status enumeration (`SnapshotStatus` in the data module). -/
inductive SnapshotStatus where
  | Unknown
  | Passed
  | Failed
deriving DecidableEq, Repr

/-- A named content blob stored for one stream of a snapshot
(the spec's `\x7bname, extension, body\x7d`; the extension is folded into
the stored name, as update names blobs `<snapshot-name>.out` / `.err`). -/
structure SnapData where
  name : String
  body : List Nat
deriving DecidableEq, Repr

/-- A snapshot: identity, command, metadata, stored streams and status
(spec section 3, the fields used by `driver/mod.rs`). -/
structure Snapshot where
  name : String
  cmd : String
  description : Option String
  tags : List String
  exit_code : Option Int
  stdout : Option SnapData
  stderr : Option SnapData
  status : SnapshotStatus
deriving DecidableEq, Repr

/-- The output of one subprocess execution: captured stdout and stderr bytes
and the optional exit code (`std::process::Output` as used by the driver). -/
structure ExecOutput where
  stdout : List Nat
  stderr : List Nat
  code : Option Int
deriving DecidableEq, Repr

/-- The stored body a stream contributes to the comparison: the blob body, or
the empty body when the stream is absent (the `if let` on `snap.stdout` /
`snap.stderr` with `empty_body` in `run_snapshot`, driver/mod.rs 206-217). -/
def stored_body : Option SnapData → List Nat
  | some d => d.body
  | none => []

/-- One item of the mismatch report `run_snapshot` writes to its buffer:
the snapshot summary box, or a per-stream diff box. -/
inductive ReportItem where
  | summary (name : String) (description : Option String) (cmd : String)
      (code : Option Int)
  | diff (stream : String) (old fresh : List Nat)
deriving DecidableEq, Repr

/-- Result of running one snapshot: the snapshot after the status write, the
returned boolean (`!failed`), and the report written to the buffer. -/
structure RunResult where
  snap : Snapshot
  pass : Bool
  report : List ReportItem
deriving DecidableEq, Repr

/-- `Context::run_snapshot` (driver/mod.rs 205-242) applied to the fresh
execution output `result`: compares fresh stdout/stderr/exit code against the
stored bodies (absent stream = empty body), emits the summary and a diff for
each differing stream when failed, writes `status`, and returns `!failed`. -/
def run_snapshot (snap : Snapshot) (result : ExecOutput) : RunResult :=
  let old_stdout := stored_body snap.stdout
  let old_stderr := stored_body snap.stderr
  let stdout_eq : Bool := decide (result.stdout = old_stdout)
  let stderr_eq : Bool := decide (result.stderr = old_stderr)
  let code_eq : Bool := decide (snap.exit_code = result.code)
  let failed : Bool := !stdout_eq || !stderr_eq || !code_eq
  let report : List ReportItem :=
    (if failed then
      [ReportItem.summary snap.name snap.description snap.cmd snap.exit_code]
    else []) ++
    (if stdout_eq then []
    else [ReportItem.diff "stdout" old_stdout result.stdout]) ++
    (if stderr_eq then []
    else [ReportItem.diff "stderr" old_stderr result.stderr])
  let status :=
    if failed then SnapshotStatus.Failed else SnapshotStatus.Passed
  { snap := { snap with status := status }, pass := !failed, report := report }

/-- Modelled from the spec: `util::to_snapshot_data` lives in
`driver/util.rs`, which is not among the provided sources. Spec section 4.4:
update "computes `new_stdout`/`new_stderr` as named blobs (named
`<snapshot-name>.out` / `<snapshot-name>.err`)". -/
def to_snapshot_data (data : List Nat) (name : String) (extension : String) :
    Option SnapData :=
  some { name := name ++ extension, body := data }

/-- `Context::update_snapshot` (driver/mod.rs 338-357) applied to the fresh
execution output `result`: replaces `exit_code`, `stdout`, `stderr` each only
when it differs from the fresh value, tracks `has_changed`, and always sets
`status = Passed`. The three conditional writes are sequenced exactly as in
the source. -/
def update_snapshot (snap : Snapshot) (result : ExecOutput) :
    Snapshot × Bool :=
  let new_stdout := to_snapshot_data result.stdout snap.name ".out"
  let new_stderr := to_snapshot_data result.stderr snap.name ".err"
  let step1 : Snapshot × Bool :=
    if snap.exit_code ≠ result.code then
      ({ snap with exit_code := result.code }, true)
    else (snap, false)
  let step2 : Snapshot × Bool :=
    if step1.1.stdout ≠ new_stdout then
      ({ step1.1 with stdout := new_stdout }, true)
    else (step1.1, step1.2)
  let step3 : Snapshot × Bool :=
    if step2.1.stderr ≠ new_stderr then
      ({ step2.1 with stderr := new_stderr }, true)
    else (step2.1, step2.2)
  ({ step3.1 with status := SnapshotStatus.Passed }, step3.2)

/-- Modelled from the spec: the `View` type lives in `driver/repl.rs`, which
is not among the provided sources. Spec section 4.3: the view exposes an
ordered visible sequence of snapshot handles and a selection cursor into that
sequence; the cursor refers to a visible entry or is "none" when the visible
sequence is empty. `snaps` is the visible sequence. -/
structure View where
  snaps : List Snapshot
  cursor : Nat
deriving DecidableEq, Repr

/-- `View::get_view`: the currently visible snapshots, in stable order
(spec section 4.3). -/
def View.get_view (v : View) : List Snapshot := v.snaps

/-- `View::get_selected` / `get_selected_mut`: the snapshot at the cursor, or
none when the visible sequence is empty (spec section 4.3). -/
def View.get_selected (v : View) : Option Snapshot := v.snaps.get? v.cursor

/-- Writing back the mutably borrowed selected snapshot: replace the entry at
the cursor. -/
def View.set_selected (v : View) (s : Snapshot) : View :=
  { v with snaps := v.snaps.set v.cursor s }

/-- Modelled from the spec: `View::up` moves the cursor by one position,
saturating at the boundary (spec section 4.3). -/
def View.up (v : View) : View := { v with cursor := v.cursor - 1 }

/-- Modelled from the spec: `View::down` moves the cursor by one position,
saturating at the boundary (spec section 4.3). -/
def View.down (v : View) : View :=
  { v with cursor :=
      if v.cursor + 1 < v.snaps.length then v.cursor + 1 else v.cursor }

/-- `Context::run_view` (driver/mod.rs 195-202) on the visible sequence: runs
every snapshot in order against the execution environment `env` (command
string to fresh output) and accumulates `success = success && pass`. Returns
the snapshots after their status writes and the aggregate. -/
def run_view (snaps : List Snapshot) (env : String → ExecOutput) :
    List Snapshot × Bool :=
  match snaps with
  | [] => ([], true)
  | s :: rest =>
    let res := run_snapshot s (env s.cmd)
    let rest' := run_view rest env
    (res.snap :: rest'.1, res.pass && rest'.2)

/-- `Target` of a run/show/update command (driver/parser `Target`). -/
inductive Target where
  | All
  | Selected
deriving DecidableEq, Repr

/-- `Context::execute_run` (driver/mod.rs 150-165), the state part: on
`All` it runs the whole view, on `Selected` it runs the snapshot under the
cursor, and with no selection it does nothing and succeeds (the
`None => true` arm). Returns the view after status writes and the success
flag fed to the success/failure banner. -/
def execute_run (view : View) (env : String → ExecOutput) (target : Target) :
    View × Bool :=
  match target with
  | Target.All =>
    let result := run_view view.get_view env
    ({ view with snaps := result.1 }, result.2)
  | Target.Selected =>
    match view.get_selected with
    | some snap =>
      let res := run_snapshot snap (env snap.cmd)
      (view.set_selected res.snap, res.pass)
    | none => (view, true)

/-- Subprocess spawn failure (spec section 7, `ExecutionError`). -/
inductive ExecError where
  | spawnFailure (message : String)
deriving DecidableEq, Repr

/-- The user-visible message carried by an execution error. -/
def execErrorMessage : ExecError → String
  | ExecError.spawnFailure m => m

/-- `run_view` against a fallible execution oracle: each `cmd::execute` may
fail with an `ExecutionError`, which aborts the operation (spec section 7;
the `error.rs` module with `unwrap_log` is not among the provided sources, so
the per-operation abort is modelled from the spec). -/
def run_viewE (snaps : List Snapshot)
    (exec : String → Except ExecError ExecOutput) :
    Except ExecError (List Snapshot × Bool) :=
  match snaps with
  | [] => Except.ok ([], true)
  | s :: rest => do
    let r ← exec s.cmd
    let res := run_snapshot s r
    let rest' ← run_viewE rest exec
    Except.ok (res.snap :: rest'.1, res.pass && rest'.2)

/-- `Context::execute_run` against a fallible execution oracle. -/
def execute_runE (view : View)
    (exec : String → Except ExecError ExecOutput) (target : Target) :
    Except ExecError (View × Bool) :=
  match target with
  | Target.All => do
    let result ← run_viewE view.get_view exec
    Except.ok ({ view with snaps := result.1 }, result.2)
  | Target.Selected =>
    match view.get_selected with
    | some snap => do
      let r ← exec snap.cmd
      let res := run_snapshot snap r
      Except.ok (view.set_selected res.snap, res.pass)
    | none => Except.ok (view, true)

/-- `Context::update_view` (driver/mod.rs 296-315) against a fallible
execution oracle: updates every visible snapshot and counts the changed
ones. -/
def update_viewE (snaps : List Snapshot)
    (exec : String → Except ExecError ExecOutput) :
    Except ExecError (List Snapshot × Nat) :=
  match snaps with
  | [] => Except.ok ([], 0)
  | s :: rest => do
    let r ← exec s.cmd
    let upd := update_snapshot s r
    let rest' ← update_viewE rest exec
    Except.ok (upd.1 :: rest'.1, (if upd.2 then 1 else 0) + rest'.2)

/-- `Context::execute_update` with `update_view` / `update_selected`
(driver/mod.rs 168-175, 296-332) against a fallible execution oracle,
returning the new view and the messages written to the REPL. -/
def execute_updateE (view : View)
    (exec : String → Except ExecError ExecOutput) (target : Target) :
    Except ExecError (View × List String) :=
  match target with
  | Target.All => do
    let (snaps', count) ← update_viewE view.get_view exec
    let msg :=
      if count > 0 then
        if count = 1 then "Updated 1 snapshot."
        else "Updated " ++ toString count ++ " snapshots."
      else "Nothing to do."
    Except.ok ({ view with snaps := snaps' }, [msg])
  | Target.Selected =>
    match view.get_selected with
    | some snap => do
      let r ← exec snap.cmd
      let (s', changed) := update_snapshot snap r
      let msg := if changed then "Updated 1 snapshot." else "Nothing to do."
      Except.ok (view.set_selected s', [msg])
    | none => Except.ok (view, ["No snapshot to update."])

/-- A parsed REPL command (driver/parser `Script`, spec section 3). -/
inductive Script where
  | Quit
  | Help
  | Edit
  | Clear
  | Filter (args : List String)
  | Run (target : Target)
  | Show (target : Target)
  | Update (target : Target)
deriving DecidableEq, Repr

/-- One REPL input event (driver/repl `Input`): cursor keys, the quit key,
or a parsed command line. -/
inductive Input where
  | Up
  | Down
  | Quit
  | Command (script : Script)
deriving DecidableEq, Repr

/-- Result of one iteration of the session loop: the view afterwards,
whether the loop keeps running (false exactly on the `break` arms), and the
messages written to the user. -/
structure StepResult where
  view : View
  continues : Bool
  messages : List String
deriving DecidableEq, Repr

/-- One iteration of `Context::repl`'s loop (driver/mod.rs 97-123), at the
level of parsed inputs. Modelled from the spec where the sources stop:
`error.rs` (`unwrap_log`) and `cmd.rs` are not among the provided sources,
and spec section 7 says an `ExecutionError` is "reported to the user with a
clear message, the specific command aborts, but the session loop itself
continues" — so a failing run/update command reports the error message and
the step continues. Help/Edit/Clear/Filter/Show mutate only presentation
state and are left inert here; no claim depends on them. -/
def replStep (view : View) (exec : String → Except ExecError ExecOutput)
    (inp : Input) : StepResult :=
  match inp with
  | Input.Up => { view := view.up, continues := true, messages := [] }
  | Input.Down => { view := view.down, continues := true, messages := [] }
  | Input.Quit => { view := view, continues := false, messages := [] }
  | Input.Command script =>
    match script with
    | Script.Quit => { view := view, continues := false, messages := [] }
    | Script.Run t =>
      match execute_runE view exec t with
      | Except.ok (v', success) =>
        { view := v', continues := true,
          messages := [if success then "Success" else "Failure"] }
      | Except.error e =>
        { view := view, continues := true,
          messages := [execErrorMessage e] }
    | Script.Update t =>
      match execute_updateE view exec t with
      | Except.ok (v', msgs) =>
        { view := v', continues := true, messages := msgs }
      | Except.error e =>
        { view := view, continues := true,
          messages := [execErrorMessage e] }
    | _ => { view := view, continues := true, messages := [] }

-- Concrete inputs used by the witnesses.

/-- A concrete snapshot: `echo hi`, stored stdout "hi\n", no stored stderr,
exit code 0. -/
def sampleSnap : Snapshot :=
  { name := "greet", cmd := "echo hi", description := none, tags := [],
    exit_code := some 0,
    stdout := some { name := "greet.out", body := [104, 105, 10] },
    stderr := none, status := SnapshotStatus.Unknown }

/-- A fresh execution output that reproduces `sampleSnap`'s stored output. -/
def sampleOut : ExecOutput :=
  { stdout := [104, 105, 10], stderr := [], code := some 0 }

/-- A fresh execution output that differs from `sampleSnap`'s stored
stdout ("bye\n" instead of "hi\n"). -/
def freshOut : ExecOutput :=
  { stdout := [98, 121, 101, 10], stderr := [], code := some 0 }

/-- A concrete snapshot with both stored streams absent. -/
def noneSnap : Snapshot :=
  { name := "quiet", cmd := "true", description := none, tags := [],
    exit_code := some 0, stdout := none, stderr := none,
    status := SnapshotStatus.Unknown }

/-- A concrete one-snapshot view with the cursor on its only entry. -/
def oneView : View := { snaps := [sampleSnap], cursor := 0 }

/-- A concrete empty view: no visible snapshot, so nothing is selected. -/
def emptyView : View := { snaps := [], cursor := 0 }

/-- An execution oracle whose spawn always fails. -/
def failExec : String → Except ExecError ExecOutput :=
  fun _ => Except.error (ExecError.spawnFailure "could not spawn shell")

-- Helper lemmas (shared; not claim theorems).

theorem run_snapshot_pass_eq (s : Snapshot) (r : ExecOutput) :
    (run_snapshot s r).pass =
      (decide (r.stdout = stored_body s.stdout) &&
       decide (r.stderr = stored_body s.stderr) &&
       decide (s.exit_code = r.code)) := by
  by_cases h1 : r.stdout = stored_body s.stdout <;>
    by_cases h2 : r.stderr = stored_body s.stderr <;>
    by_cases h3 : s.exit_code = r.code <;>
    simp [run_snapshot, h1, h2, h3]

theorem update_snapshot_fields (s : Snapshot) (r : ExecOutput) :
    ((update_snapshot s r).1.exit_code = r.code) ∧
    ((update_snapshot s r).1.stdout = to_snapshot_data r.stdout s.name ".out") ∧
    ((update_snapshot s r).1.stderr = to_snapshot_data r.stderr s.name ".err") ∧
    ((update_snapshot s r).1.status = SnapshotStatus.Passed) ∧
    ((update_snapshot s r).1.name = s.name) ∧
    ((update_snapshot s r).1.cmd = s.cmd) := by
  by_cases h1 : s.exit_code = r.code <;>
    by_cases h2 : s.stdout = to_snapshot_data r.stdout s.name ".out" <;>
    by_cases h3 : s.stderr = to_snapshot_data r.stderr s.name ".err" <;>
    simp [update_snapshot, h1, h2, h3]

theorem update_snapshot_changed_iff (s : Snapshot) (r : ExecOutput) :
    (update_snapshot s r).2 = true ↔
      (s.exit_code ≠ r.code ∨
       s.stdout ≠ to_snapshot_data r.stdout s.name ".out" ∨
       s.stderr ≠ to_snapshot_data r.stderr s.name ".err") := by
  by_cases h1 : s.exit_code = r.code <;>
    by_cases h2 : s.stdout = to_snapshot_data r.stdout s.name ".out" <;>
    by_cases h3 : s.stderr = to_snapshot_data r.stderr s.name ".err" <;>
    simp [update_snapshot, h1, h2, h3]

theorem run_snapshot_status_eq (s : Snapshot) (r : ExecOutput) :
    (run_snapshot s r).snap.status =
      if (run_snapshot s r).pass then SnapshotStatus.Passed
      else SnapshotStatus.Failed := by
  by_cases h1 : r.stdout = stored_body s.stdout <;>
    by_cases h2 : r.stderr = stored_body s.stderr <;>
    by_cases h3 : s.exit_code = r.code <;>
    simp [run_snapshot, h1, h2, h3]

theorem run_snapshot_report_empty_iff (s : Snapshot) (r : ExecOutput) :
    (run_snapshot s r).report = [] ↔ (run_snapshot s r).pass = true := by
  by_cases h1 : r.stdout = stored_body s.stdout <;>
    by_cases h2 : r.stderr = stored_body s.stderr <;>
    by_cases h3 : s.exit_code = r.code <;>
    simp [run_snapshot, h1, h2, h3]

theorem run_view_snd_eq (l : List Snapshot) (env : String → ExecOutput) :
    (run_view l env).2 = l.all fun s => (run_snapshot s (env s.cmd)).pass := by
  induction l with
  | nil => rfl
  | cons s rest ih => simp [run_view, List.all_cons, ih]

-- Claim theorems.

/-- C1: for every snapshot, Run executes the snapshot's command and compares
fresh stdout, stderr, and exit code against the stored stdout body, stderr
body, and exit code; equality on all three yields status Passed and no
mismatch report, and any difference yields status Failed. -/
theorem run_snapshot_three_way_verdict (s : Snapshot) (r : ExecOutput) :
    ((run_snapshot s r).pass = true ↔
      (r.stdout = stored_body s.stdout ∧ r.stderr = stored_body s.stderr ∧
       s.exit_code = r.code)) ∧
    ((run_snapshot s r).snap.status =
      if (run_snapshot s r).pass then SnapshotStatus.Passed
      else SnapshotStatus.Failed) ∧
    ((run_snapshot s r).report = [] ↔ (run_snapshot s r).pass = true) := by
  refine ⟨?_, run_snapshot_status_eq s r, run_snapshot_report_empty_iff s r⟩
  rw [run_snapshot_pass_eq]
  simp [and_assoc]

/-- C1 witness: the verdict characterization at a concrete snapshot whose
command reproduces the stored output. -/
theorem run_snapshot_three_way_verdict_witness :
    ((run_snapshot sampleSnap sampleOut).pass = true ↔
      (sampleOut.stdout = stored_body sampleSnap.stdout ∧
       sampleOut.stderr = stored_body sampleSnap.stderr ∧
       sampleSnap.exit_code = sampleOut.code)) ∧
    ((run_snapshot sampleSnap sampleOut).snap.status =
      if (run_snapshot sampleSnap sampleOut).pass then SnapshotStatus.Passed
      else SnapshotStatus.Failed) ∧
    ((run_snapshot sampleSnap sampleOut).report = [] ↔
      (run_snapshot sampleSnap sampleOut).pass = true) :=
  run_snapshot_three_way_verdict sampleSnap sampleOut

/-- C2: Update replaces stored exit code, stdout and stderr with the fresh
values (each write happening only where the field differs), reports a change
exactly when one of the three fields differed, and always ends with status
Passed. -/
theorem update_snapshot_reconciles (s : Snapshot) (r : ExecOutput) :
    ((update_snapshot s r).1.exit_code = r.code) ∧
    ((update_snapshot s r).1.stdout =
      to_snapshot_data r.stdout s.name ".out") ∧
    ((update_snapshot s r).1.stderr =
      to_snapshot_data r.stderr s.name ".err") ∧
    ((update_snapshot s r).2 = true ↔
      (s.exit_code ≠ r.code ∨
       s.stdout ≠ to_snapshot_data r.stdout s.name ".out" ∨
       s.stderr ≠ to_snapshot_data r.stderr s.name ".err")) ∧
    ((update_snapshot s r).1.status = SnapshotStatus.Passed) := by
  obtain ⟨h1, h2, h3, h4, _, _⟩ := update_snapshot_fields s r
  exact ⟨h1, h2, h3, update_snapshot_changed_iff s r, h4⟩

/-- C2 witness: the update characterization at a concrete snapshot and
fresh output. -/
theorem update_snapshot_reconciles_witness :
    ((update_snapshot sampleSnap freshOut).1.exit_code = freshOut.code) ∧
    ((update_snapshot sampleSnap freshOut).1.stdout =
      to_snapshot_data freshOut.stdout sampleSnap.name ".out") ∧
    ((update_snapshot sampleSnap freshOut).1.stderr =
      to_snapshot_data freshOut.stderr sampleSnap.name ".err") ∧
    ((update_snapshot sampleSnap freshOut).2 = true ↔
      (sampleSnap.exit_code ≠ freshOut.code ∨
       sampleSnap.stdout ≠
         to_snapshot_data freshOut.stdout sampleSnap.name ".out" ∨
       sampleSnap.stderr ≠
         to_snapshot_data freshOut.stderr sampleSnap.name ".err")) ∧
    ((update_snapshot sampleSnap freshOut).1.status =
      SnapshotStatus.Passed) :=
  update_snapshot_reconciles sampleSnap freshOut

/-- C3: for a deterministic command (both executions produce the same
output), a second Update right after a first one reports no change. -/
theorem update_snapshot_idempotent (s : Snapshot) (r : ExecOutput) :
    (update_snapshot (update_snapshot s r).1 r).2 = false := by
  obtain ⟨hc, ho, he, _, hn, _⟩ := update_snapshot_fields s r
  cases hb : (update_snapshot (update_snapshot s r).1 r).2 with
  | false => rfl
  | true =>
    exfalso
    rcases (update_snapshot_changed_iff (update_snapshot s r).1 r).1 hb with
      h | h | h
    · exact h (by rw [hc])
    · exact h (by rw [ho, hn])
    · exact h (by rw [he, hn])

/-- C4: for a deterministic command, Run immediately after Update reports no
mismatch and leaves status Passed. -/
theorem update_then_run_passes (s : Snapshot) (r : ExecOutput) :
    ((run_snapshot (update_snapshot s r).1 r).pass = true) ∧
    ((run_snapshot (update_snapshot s r).1 r).snap.status =
      SnapshotStatus.Passed) := by
  obtain ⟨hc, ho, he, _, _, _⟩ := update_snapshot_fields s r
  have hpass : (run_snapshot (update_snapshot s r).1 r).pass = true := by
    rw [run_snapshot_pass_eq, hc, ho, he]
    simp [to_snapshot_data, stored_body]
  refine ⟨hpass, ?_⟩
  rw [run_snapshot_status_eq, hpass]
  rfl

/-- C5: Run never mutates the stored content of a snapshot — command, stored
streams, exit code, name, description and tags are all preserved; only the
status field may change. -/
theorem run_snapshot_frame (s : Snapshot) (r : ExecOutput) :
    ((run_snapshot s r).snap.cmd = s.cmd) ∧
    ((run_snapshot s r).snap.stdout = s.stdout) ∧
    ((run_snapshot s r).snap.stderr = s.stderr) ∧
    ((run_snapshot s r).snap.exit_code = s.exit_code) ∧
    ((run_snapshot s r).snap.name = s.name) ∧
    ((run_snapshot s r).snap.description = s.description) ∧
    ((run_snapshot s r).snap.tags = s.tags) := by
  simp [run_snapshot]

/-- C6: running all snapshots of a view aggregates overall success as the
logical AND of the per-snapshot run results, so a single failing snapshot
fails the whole run. -/
theorem run_view_success_iff (v : View) (env : String → ExecOutput) :
    ((run_view v.get_view env).2 =
      (v.get_view.map fun s => (run_snapshot s (env s.cmd)).pass).foldr
        (fun a b => a && b) true) ∧
    ((run_view v.get_view env).2 = true ↔
      ∀ s ∈ v.get_view, (run_snapshot s (env s.cmd)).pass = true) := by
  constructor
  · rw [run_view_snd_eq]
    induction v.get_view with
    | nil => rfl
    | cons s rest ih => simp [List.all_cons, ih]
  · rw [run_view_snd_eq]
    simp [List.all_eq_true]

/-- C6 witness: the aggregation characterization at a concrete one-snapshot
view. -/
theorem run_view_success_iff_witness :
    ((run_view oneView.get_view (fun _ => sampleOut)).2 =
      (oneView.get_view.map fun s =>
        (run_snapshot s ((fun _ => sampleOut) s.cmd)).pass).foldr
        (fun a b => a && b) true) ∧
    ((run_view oneView.get_view (fun _ => sampleOut)).2 = true ↔
      ∀ s ∈ oneView.get_view,
        (run_snapshot s ((fun _ => sampleOut) s.cmd)).pass = true) :=
  run_view_success_iff oneView (fun _ => sampleOut)

/-- C7: an absent stored stream is compared as the empty blob: with stdout
(resp. stderr) absent, the run verdict checks the fresh stdout (resp.
stderr) against the empty byte list, so a fresh empty output on that stream
compares equal and a fresh non-empty output compares unequal. -/
theorem run_snapshot_absent_stream (s : Snapshot) (r : ExecOutput) :
    (s.stdout = none →
      (run_snapshot s r).pass =
        (decide (r.stdout = ([] : List Nat)) &&
         decide (r.stderr = stored_body s.stderr) &&
         decide (s.exit_code = r.code))) ∧
    (s.stderr = none →
      (run_snapshot s r).pass =
        (decide (r.stdout = stored_body s.stdout) &&
         decide (r.stderr = ([] : List Nat)) &&
         decide (s.exit_code = r.code))) := by
  constructor <;> intro h <;> rw [run_snapshot_pass_eq, h] <;>
    simp [stored_body]

/-- C7 witness: both absent-stream characterizations at a concrete snapshot
without stored streams. -/
theorem run_snapshot_absent_stream_witness :
    ((run_snapshot noneSnap sampleOut).pass =
      (decide (sampleOut.stdout = ([] : List Nat)) &&
       decide (sampleOut.stderr = stored_body noneSnap.stderr) &&
       decide (noneSnap.exit_code = sampleOut.code))) ∧
    ((run_snapshot noneSnap sampleOut).pass =
      (decide (sampleOut.stdout = stored_body noneSnap.stdout) &&
       decide (sampleOut.stderr = ([] : List Nat)) &&
       decide (noneSnap.exit_code = sampleOut.code))) :=
  ⟨(run_snapshot_absent_stream noneSnap sampleOut).1 rfl,
   (run_snapshot_absent_stream noneSnap sampleOut).2 rfl⟩

/-- C8: every Run and every Update recomputes the status field from that
execution: the resulting status is independent of the incoming status, a run
ends Passed exactly when it passed (and otherwise Failed, never a stale
Unknown), and an update always ends Passed. -/
theorem status_recomputed (s : Snapshot) (r : ExecOutput)
    (st : SnapshotStatus) :
    ((run_snapshot { s with status := st } r).snap.status =
      (run_snapshot s r).snap.status) ∧
    ((run_snapshot s r).snap.status = SnapshotStatus.Passed ↔
      (run_snapshot s r).pass = true) ∧
    ((run_snapshot s r).snap.status = SnapshotStatus.Passed ∨
      (run_snapshot s r).snap.status = SnapshotStatus.Failed) ∧
    ((update_snapshot { s with status := st } r).1.status =
      SnapshotStatus.Passed) := by
  refine ⟨?_, ?_, ?_, ?_⟩
  · rw [run_snapshot_status_eq, run_snapshot_status_eq,
      run_snapshot_pass_eq, run_snapshot_pass_eq]
  · rw [run_snapshot_status_eq]
    cases h : (run_snapshot s r).pass <;> simp
  · rw [run_snapshot_status_eq]
    cases h : (run_snapshot s r).pass <;> simp
  · exact (update_snapshot_fields { s with status := st } r).2.2.2.1

/-- C8 witness: status recomputation at a concrete snapshot, incoming
status Failed. -/
theorem status_recomputed_witness :
    ((run_snapshot { sampleSnap with status := SnapshotStatus.Failed }
        sampleOut).snap.status =
      (run_snapshot sampleSnap sampleOut).snap.status) ∧
    ((run_snapshot sampleSnap sampleOut).snap.status =
        SnapshotStatus.Passed ↔
      (run_snapshot sampleSnap sampleOut).pass = true) ∧
    ((run_snapshot sampleSnap sampleOut).snap.status =
        SnapshotStatus.Passed ∨
      (run_snapshot sampleSnap sampleOut).snap.status =
        SnapshotStatus.Failed) ∧
    ((update_snapshot { sampleSnap with status := SnapshotStatus.Failed }
        sampleOut).1.status = SnapshotStatus.Passed) :=
  status_recomputed sampleSnap sampleOut SnapshotStatus.Failed

/-- C9: when subprocess execution fails with an ExecutionError during a run
or update command, the session step reports the error message, aborts just
that command (the view is left as it was), and the loop continues (the step
does not terminate the session). -/
theorem exec_error_keeps_session (view : View)
    (exec : String → Except ExecError ExecOutput) (t : Target)
    (e : ExecError) :
    (execute_runE view exec t = Except.error e →
      replStep view exec (Input.Command (Script.Run t)) =
        { view := view, continues := true,
          messages := [execErrorMessage e] }) ∧
    (execute_updateE view exec t = Except.error e →
      replStep view exec (Input.Command (Script.Update t)) =
        { view := view, continues := true,
          messages := [execErrorMessage e] }) := by
  constructor <;> intro h <;> simp [replStep, h]

/-- C9 witness: a failing spawn during `run all` and during `update all` on
a concrete one-snapshot view reports the error and keeps the loop going. -/
theorem exec_error_keeps_session_witness :
    (replStep oneView failExec (Input.Command (Script.Run Target.All)) =
      { view := oneView, continues := true,
        messages :=
          [execErrorMessage (ExecError.spawnFailure "could not spawn shell")] }) ∧
    (replStep oneView failExec (Input.Command (Script.Update Target.All)) =
      { view := oneView, continues := true,
        messages :=
          [execErrorMessage (ExecError.spawnFailure "could not spawn shell")] }) :=
  ⟨(exec_error_keeps_session oneView failExec Target.All
      (ExecError.spawnFailure "could not spawn shell")).1 rfl,
   (exec_error_keeps_session oneView failExec Target.All
      (ExecError.spawnFailure "could not spawn shell")).2 rfl⟩

/-- C10: a run command with target Selected on a view whose visible sequence
is empty performs no execution: it reports overall success and changes no
snapshot (the view is returned unchanged, for every execution
environment). -/
theorem run_selected_empty_view (v : View) (env : String → ExecOutput)
    (h : v.snaps = []) :
    execute_run v env Target.Selected = (v, true) := by
  simp [execute_run, View.get_selected, h]

/-- C10 witness: the run command on a concrete empty view succeeds without
touching anything. -/
theorem run_selected_empty_view_witness :
    execute_run emptyView (fun _ => sampleOut) Target.Selected =
      (emptyView, true) :=
  run_selected_empty_view emptyView (fun _ => sampleOut) rfl

end Parrot
